import Mathlib

/-!
Verification development for the pickle schema-compilation and migration
engine.  The Go sources under `pkg/schema`, `pkg/migration` and
`pkg/generator` are shallowly embedded: pure Go functions become Lean
functions, the database connection becomes an explicit state record, Go
`panic` and Go errors become `Except`/`Option`, and Go `any` values become
the `GoValue` inductive.  Identifiers keep the Go names where Lean allows.
-/

namespace Pickle

/-- Go `any` values that occur as column defaults (`Column.DefaultValue`). -/
inductive GoValue where
  | vnil : GoValue
  | vstr : String → GoValue
  | vint : Int → GoValue
  | vbool : Bool → GoValue
deriving DecidableEq, Repr

/-- Go `fmt.Sprintf("%v", v)` on the values of `GoValue`. -/
def goFormat : GoValue → String
  | .vnil => "<nil>"
  | .vstr s => s
  | .vint n => toString n
  | .vbool b => if b then "true" else "false"

/-- Go `strings.Contains(s, c)` for a one-character pattern. -/
def goContainsChar (s : String) (c : Char) : Bool :=
  s.toList.contains c

/-- Go `strings.ReplaceAll(s, pat, rep)` for a one-character pattern
(each occurrence of `pat` is replaced by `rep`). -/
def goReplaceAllChar (s : String) (pat : Char) (rep : String) : String :=
  ⟨s.toList.flatMap (fun c => if c = pat then rep.toList else [c])⟩

/-- `ColumnType` from `pkg/schema` (src/unnamed/part_003): the closed enum of
column data types. -/
inductive ColumnType where
  | uuid | string | text | integer | bigInteger | decimal | boolean
  | timestamp | jsonb | date | time | binary
deriving DecidableEq, Repr

/-- `Column` from `pkg/schema/column.go`.  Go zero values become the
defaults. -/
structure Column where
  name : String := ""
  type : ColumnType := .uuid
  length : Int := 0
  precision : Int := 0
  scale : Int := 0
  isPrimaryKey : Bool := false
  isNullable : Bool := false
  isUnique : Bool := false
  defaultValue : GoValue := .vnil
  hasDefault : Bool := false
  foreignKeyTable : String := ""
  foreignKeyColumn : String := ""
  isPublic : Bool := false
  isOwnerSees : Bool := false
  isOwnerColumn : Bool := false
deriving DecidableEq, Repr

/-- `Table` from `pkg/schema` (src/unnamed/part_001). -/
structure Table where
  name : String := ""
  columns : List Column := []
deriving DecidableEq, Repr

/-- `Index` from `pkg/schema` (src/unnamed/part_002). -/
structure Index where
  table : String := ""
  columns : List String := []
  unique : Bool := false
deriving DecidableEq, Repr

namespace Column

/-- `Column.PrimaryKey` builder (column.go). -/
def primaryKey (c : Column) : Column := { c with isPrimaryKey := true }

/-- `Column.NotNull` builder (column.go). -/
def notNull (c : Column) : Column := { c with isNullable := false }

/-- `Column.Nullable` builder (column.go). -/
def nullable (c : Column) : Column := { c with isNullable := true }

/-- `Column.Unique` builder (column.go). -/
def unique (c : Column) : Column := { c with isUnique := true }

/-- `Column.Default` builder (column.go). -/
def default (c : Column) (v : GoValue) : Column :=
  { c with defaultValue := v, hasDefault := true }

/-- `Column.ForeignKey` builder (column.go). -/
def foreignKey (c : Column) (table column : String) : Column :=
  { c with foreignKeyTable := table, foreignKeyColumn := column }

/-- `Column.Public` builder (column.go). -/
def publicCol (c : Column) : Column := { c with isPublic := true }

/-- `Column.OwnerSees` builder (column.go). -/
def ownerSees (c : Column) : Column := { c with isOwnerSees := true }

/-- `Column.IsOwner` builder (column.go). -/
def isOwner (c : Column) : Column := { c with isOwnerColumn := true }

end Column

namespace Table

/-- `Table.addColumn` (src/unnamed/part_001): creates a fresh column with
only name and type set, appends it, and returns it for chaining.  Go
returns a pointer into the table; the pure embedding returns the updated
table together with the created column. -/
def addColumn (t : Table) (name : String) (colType : ColumnType) :
    Table × Column :=
  let c : Column := { name := name, type := colType }
  ({ t with columns := t.columns ++ [c] }, c)

/-- `Table.UUID` (src/unnamed/part_001). -/
def uuid (t : Table) (name : String) : Table × Column :=
  addColumn t name .uuid

/-- `Table.String` (src/unnamed/part_001): length defaults to 255 when not
supplied.  The Go variadic `length ...int` becomes a list.  Go appends the
column and then sets `Length` through the returned pointer; the pure
embedding sets the field before appending, which yields the same final
table. -/
def stringCol (t : Table) (name : String) (length : List Int := []) :
    Table × Column :=
  let c : Column :=
    { name := name, type := .string,
      length := match length with | l :: _ => l | [] => 255 }
  ({ t with columns := t.columns ++ [c] }, c)

/-- `Table.Text` (src/unnamed/part_001). -/
def text (t : Table) (name : String) : Table × Column :=
  addColumn t name .text

/-- `Table.Integer` (src/unnamed/part_001). -/
def integer (t : Table) (name : String) : Table × Column :=
  addColumn t name .integer

/-- `Table.BigInteger` (src/unnamed/part_001). -/
def bigInteger (t : Table) (name : String) : Table × Column :=
  addColumn t name .bigInteger

/-- `Table.Decimal` (src/unnamed/part_001): sets precision and scale on the
created column. -/
def decimal (t : Table) (name : String) (precision scale : Int) :
    Table × Column :=
  let c : Column :=
    { name := name, type := .decimal, precision := precision, scale := scale }
  ({ t with columns := t.columns ++ [c] }, c)

/-- `Table.Boolean` (src/unnamed/part_001). -/
def boolean (t : Table) (name : String) : Table × Column :=
  addColumn t name .boolean

/-- `Table.Timestamp` (src/unnamed/part_001). -/
def timestamp (t : Table) (name : String) : Table × Column :=
  addColumn t name .timestamp

/-- `Table.JSONB` (src/unnamed/part_001). -/
def jsonb (t : Table) (name : String) : Table × Column :=
  addColumn t name .jsonb

/-- `Table.Date` (src/unnamed/part_001). -/
def date (t : Table) (name : String) : Table × Column :=
  addColumn t name .date

/-- `Table.Time` (src/unnamed/part_001). -/
def timeCol (t : Table) (name : String) : Table × Column :=
  addColumn t name .time

/-- `Table.Binary` (src/unnamed/part_001). -/
def binary (t : Table) (name : String) : Table × Column :=
  addColumn t name .binary

/-- `Table.Timestamps` (src/unnamed/part_001): sugar for two NOT NULL
timestamp columns `created_at` and `updated_at` (`NotNull` leaves the
freshly-created columns at `isNullable = false`). -/
def timestamps (t : Table) : Table :=
  { t with columns := t.columns ++
      [Column.notNull { name := "created_at", type := .timestamp },
       Column.notNull { name := "updated_at", type := .timestamp }] }

end Table

/-- `ViewSource` from `pkg/schema/schema_test.go` (the view definitions
bundled in that file): a table referenced by a view (FROM or JOIN). -/
structure ViewSource where
  table : String := ""
  aliasName : String := ""
  joinType : String := ""
  joinCondition : String := ""
deriving DecidableEq, Repr

/-- `ViewColumn` from `pkg/schema/schema_test.go`: a column in a view's
SELECT list.  The Go struct embeds `Column`; the embedding becomes the
explicit field `col`. -/
structure ViewColumn where
  col : Column := {}
  sourceAlias : String := ""
  sourceColumn : String := ""
  outputAlias : String := ""
  rawExpr : String := ""
deriving DecidableEq, Repr

/-- `View` from `pkg/schema/schema_test.go`. -/
structure View where
  name : String := ""
  sources : List ViewSource := []
  columns : List ViewColumn := []
  groupByCols : List String := []
deriving DecidableEq, Repr

namespace ViewColumn

/-- `ViewColumn.OutputName` (schema_test.go): output alias wins, then the
source column name, then the embedded column name. -/
def outputName (vc : ViewColumn) : String :=
  if vc.outputAlias ≠ "" then vc.outputAlias
  else if vc.sourceColumn ≠ "" then vc.sourceColumn
  else vc.col.name

/-- `ViewColumn.BigInteger` type builder (schema_test.go). -/
def bigIntegerType (vc : ViewColumn) : ViewColumn :=
  { vc with col := { vc.col with type := .bigInteger } }

/-- `ViewColumn.IntegerType` type builder (schema_test.go). -/
def integerType (vc : ViewColumn) : ViewColumn :=
  { vc with col := { vc.col with type := .integer } }

/-- `ViewColumn.Decimal` type builder (schema_test.go). -/
def decimalType (vc : ViewColumn) (precision scale : Int) : ViewColumn :=
  { vc with col :=
      { vc.col with
          type := .decimal
          precision := precision
          scale := scale } }

/-- `ViewColumn.StringType` type builder (schema_test.go). -/
def stringType (vc : ViewColumn) (length : List Int := []) : ViewColumn :=
  { vc with col :=
      { vc.col with
          type := .string
          length := match length with | l :: _ => l | [] => 255 } }

/-- `ViewColumn.TimestampType` type builder (schema_test.go). -/
def timestampType (vc : ViewColumn) : ViewColumn :=
  { vc with col := { vc.col with type := .timestamp } }

end ViewColumn

/-- `parseColumnRef` (schema_test.go): split at the first `.`; with no dot
the alias is empty and the whole ref is the column. -/
def splitAtDot : List Char → Option (List Char × List Char)
  | [] => none
  | c :: rest =>
    if c = '.' then some ([], rest)
    else match splitAtDot rest with
      | some (a, b) => some (c :: a, b)
      | none => none

/-- `parseColumnRef` (schema_test.go) on strings. -/
def parseColumnRef (ref : String) : String × String :=
  match splitAtDot ref.toList with
  | some (a, b) => (⟨a⟩, ⟨b⟩)
  | none => ("", ref)

namespace View

/-- `View.From` (schema_test.go). -/
def fromTable (v : View) (table aliasName : String) : View :=
  { v with sources := v.sources ++ [{ table := table, aliasName := aliasName }] }

/-- `View.Join` (schema_test.go). -/
def join (v : View) (table aliasName onCond : String) : View :=
  { v with sources := v.sources ++
      [{ table := table, aliasName := aliasName, joinType := "JOIN",
         joinCondition := onCond }] }

/-- `View.LeftJoin` (schema_test.go). -/
def leftJoin (v : View) (table aliasName onCond : String) : View :=
  { v with sources := v.sources ++
      [{ table := table, aliasName := aliasName, joinType := "LEFT JOIN",
         joinCondition := onCond }] }

/-- `View.Column` (schema_test.go): parses `"alias.column"`, defaults the
name to the source column, and an optional alias (Go variadic) overrides
both the output alias and the name. -/
def column (v : View) (ref : String) (aliasArgs : List String := []) : View :=
  let p := parseColumnRef ref
  let vc : ViewColumn :=
    { sourceAlias := p.1, sourceColumn := p.2, col := { name := p.2 } }
  let vc :=
    match aliasArgs with
    | a :: _ => { vc with outputAlias := a, col := { vc.col with name := a } }
    | [] => vc
  { v with columns := v.columns ++ [vc] }

/-- `View.SelectRaw` (schema_test.go): adds a computed column carrying the
raw SQL expression and returns it for chained type builders. -/
def selectRaw (v : View) (name expr : String) : View × ViewColumn :=
  let vc : ViewColumn := { rawExpr := expr, col := { name := name } }
  ({ v with columns := v.columns ++ [vc] }, vc)

/-- `View.GroupBy` (schema_test.go). -/
def groupBy (v : View) (columns : List String) : View :=
  { v with groupByCols := columns }

end View

/-- `TableOperation` (src/unnamed/part_002) extended with the two view tags.
The first eight constructors are the enum as declared in `part_002`; the
last two are Modelled from the spec: the view-capable schema DSL emitted
into user projects (`GenerateCoreSchema`/`embedSCHEMA`, and the synthesized
inspector) is not under `src/` — only its documentation
(`docs/Requests.md`) and callers (the `testdata` migration calling
`CreateView`/`DropView`) are — and the spec's §3 lists CreateView and
DropView among the Operation tags. -/
inductive TableOperation where
  | opCreateTable
  | opDropTableIfExists
  | opRenameTable
  | opAddColumn
  | opDropColumn
  | opRenameColumn
  | opAddIndex
  | opAddUniqueIndex
  | opCreateView
  | opDropView
deriving DecidableEq, Repr

/-- `Operation` (src/unnamed/part_002): one recorded schema change,
realized as a tag plus the fields relevant to each tag.  Go's nil pointers
become `Option`; the deferred column-definition callback
`ColumnDef func(*Table)` becomes a pure `Table → Table` function.  The
`viewDef` field is Modelled from the spec for the two view tags (the
view-capable recorder is not under `src/`). -/
structure Operation where
  type : TableOperation
  table : String := ""
  tableDef : Option Table := none
  index : Option Index := none
  newName : String := ""
  oldName : String := ""
  columnName : String := ""
  columnDef : Option (Table → Table) := none
  viewDef : Option View := none

/-- `Migration` (src/unnamed/part_002): the base recorder type embedded by
every migration struct, holding the ordered Operation log. -/
structure Migration where
  operations : List Operation := []

namespace Migration

/-- `Migration.CreateTable` (part_002): builds a fresh table, runs the
configuration callback against it, and appends a CreateTable operation. -/
def createTable (m : Migration) (name : String) (fn : Table → Table) :
    Migration :=
  let t := fn { name := name }
  { m with operations := m.operations ++
      [{ type := .opCreateTable, table := name, tableDef := some t }] }

/-- `Migration.DropTableIfExists` (part_002). -/
def dropTableIfExists (m : Migration) (name : String) : Migration :=
  { m with operations := m.operations ++
      [{ type := .opDropTableIfExists, table := name }] }

/-- `Migration.RenameTable` (part_002). -/
def renameTable (m : Migration) (oldName newName : String) : Migration :=
  { m with operations := m.operations ++
      [{ type := .opRenameTable, table := oldName, oldName := oldName,
         newName := newName }] }

/-- `Migration.AddColumn` (part_002): records the deferred
column-definition callback. -/
def addColumn (m : Migration) (table : String) (fn : Table → Table) :
    Migration :=
  { m with operations := m.operations ++
      [{ type := .opAddColumn, table := table, columnDef := some fn }] }

/-- `Migration.DropColumn` (part_002). -/
def dropColumn (m : Migration) (table column : String) : Migration :=
  { m with operations := m.operations ++
      [{ type := .opDropColumn, table := table, columnName := column }] }

/-- `Migration.RenameColumn` (part_002). -/
def renameColumn (m : Migration) (table oldName newName : String) :
    Migration :=
  { m with operations := m.operations ++
      [{ type := .opRenameColumn, table := table, columnName := oldName,
         oldName := oldName, newName := newName }] }

/-- `Migration.AddIndex` (part_002): a non-unique index on the supplied
columns in order. -/
def addIndex (m : Migration) (table : String) (columns : List String) :
    Migration :=
  { m with operations := m.operations ++
      [{ type := .opAddIndex, table := table,
         index := some { table := table, columns := columns,
                         unique := false } }] }

/-- `Migration.AddUniqueIndex` (part_002): a unique index on the supplied
columns in order. -/
def addUniqueIndex (m : Migration) (table : String) (columns : List String) :
    Migration :=
  { m with operations := m.operations ++
      [{ type := .opAddUniqueIndex, table := table,
         index := some { table := table, columns := columns,
                         unique := true } }] }

/-- Modelled from the spec: `Migration.CreateView` of the view-capable DSL
emitted into user projects (not under `src/`; documented in
`docs/Requests.md` and called by the `testdata` migrations).  Like
`CreateTable`, it builds a fresh view, runs the configuration callback and
appends a CreateView operation carrying the view definition. -/
def createView (m : Migration) (name : String) (fn : View → View) :
    Migration :=
  let v := fn { name := name }
  { m with operations := m.operations ++
      [{ type := .opCreateView, table := name, viewDef := some v }] }

/-- Modelled from the spec: `Migration.DropView` of the view-capable DSL
emitted into user projects (not under `src/`).  Appends a DropView
operation naming the view. -/
def dropView (m : Migration) (name : String) : Migration :=
  { m with operations := m.operations ++
      [{ type := .opDropView, table := name }] }

/-- `Migration.Reset` (part_002): clears the recorded log. -/
def reset (m : Migration) : Migration := { m with operations := [] }

/-- `Migration.GetOperations` (part_002). -/
def getOperations (m : Migration) : List Operation := m.operations

/-- `Migration.Transactional` (part_002): true by default. -/
def transactionalDefault (_ : Migration) : Bool := true

end Migration

/-- The cumulative schema snapshot a running inspector folds forward
(tables plus views). -/
structure SchemaSnapshot where
  tables : List Table := []
  views : List View := []

/-- Modelled from the spec: the synthesized inspector program
(`GenerateSchemaInspector`, not under `src/` — only its callers are) folds
a running in-memory schema snapshot forward by applying every Operation in
discovery order: CreateTable seeds a table; DropTableIfExists removes it;
AddColumn/DropColumn/RenameColumn mutate an existing one; RenameTable
renames; CreateView/DropView manage the view set. -/
def applySchemaOp (s : SchemaSnapshot) (op : Operation) : SchemaSnapshot :=
  match op.type with
  | .opCreateTable =>
    { s with tables := s.tables ++ [op.tableDef.getD { name := op.table }] }
  | .opDropTableIfExists =>
    { s with tables := s.tables.filter (fun t => t.name ≠ op.table) }
  | .opRenameTable =>
    { s with tables := s.tables.map (fun t =>
        if t.name = op.oldName then { t with name := op.newName } else t) }
  | .opAddColumn =>
    { s with tables := s.tables.map (fun t =>
        if t.name = op.table then
          match op.columnDef with
          | some fn => { t with columns := t.columns ++ (fn { name := "" }).columns }
          | none => t
        else t) }
  | .opDropColumn =>
    { s with tables := s.tables.map (fun t =>
        if t.name = op.table then
          { t with columns := t.columns.filter (fun c => c.name ≠ op.columnName) }
        else t) }
  | .opRenameColumn =>
    { s with tables := s.tables.map (fun t =>
        if t.name = op.table then
          { t with columns := t.columns.map (fun c =>
              if c.name = op.oldName then { c with name := op.newName } else c) }
        else t) }
  | .opAddIndex => s
  | .opAddUniqueIndex => s
  | .opCreateView =>
    { s with views := s.views ++ [op.viewDef.getD { name := op.table }] }
  | .opDropView =>
    { s with views := s.views.filter (fun v => v.name ≠ op.table) }

/-- `qi` (sql_postgres.go): quotes a Postgres identifier by doubling every
embedded double-quote character and wrapping the result in double
quotes. -/
def qi (name : String) : String :=
  "\"" ++ goReplaceAllChar name '"' "\"\"" ++ "\""

/-- Modelled from the spec: unquoting a quoted Postgres identifier, written
from the spec's words "stripping the outer quotes and collapsing doubled
quotes" (the source has no unquote function; the spec asks for a
quote/unquote round trip). -/
def collapseDoubledQuotes : List Char → List Char
  | [] => []
  | [c] => [c]
  | c :: d :: rest =>
    if c = '"' ∧ d = '"' then '"' :: collapseDoubledQuotes rest
    else c :: collapseDoubledQuotes (d :: rest)

/-- Modelled from the spec: strip the outer quotes, then collapse doubled
quotes. -/
def unquoteIdent (s : String) : String :=
  ⟨collapseDoubledQuotes (s.toList.drop 1).dropLast⟩

namespace postgresGenerator

/-- `postgresGenerator.columnType` (sql_postgres.go): maps each column type
to its native Postgres equivalent. -/
def columnType (col : Column) : String :=
  match col.type with
  | .uuid => "UUID"
  | .string =>
    if col.length > 0 then "VARCHAR(" ++ toString col.length ++ ")"
    else "VARCHAR(255)"
  | .text => "TEXT"
  | .integer => "INTEGER"
  | .bigInteger => "BIGINT"
  | .decimal =>
    if col.precision > 0 then
      "NUMERIC(" ++ toString col.precision ++ ", " ++ toString col.scale ++ ")"
    else "NUMERIC"
  | .boolean => "BOOLEAN"
  | .timestamp => "TIMESTAMPTZ"
  | .jsonb => "JSONB"
  | .date => "DATE"
  | .time => "TIME"
  | .binary => "BYTEA"

/-- `postgresGenerator.columnDef` (sql_postgres.go): name, type, then
PRIMARY KEY / NOT NULL (omitted when already PRIMARY KEY) / UNIQUE /
DEFAULT / REFERENCES, appended in that order exactly as the Go
string-builder writes them. -/
def columnDef (col : Column) : String :=
  qi col.name ++ " " ++ columnType col
  ++ (if col.isPrimaryKey then " PRIMARY KEY" else "")
  ++ (if !col.isNullable && !col.isPrimaryKey then " NOT NULL" else "")
  ++ (if col.isUnique then " UNIQUE" else "")
  ++ (if col.hasDefault then
        match col.defaultValue with
        | .vstr v =>
          if goContainsChar v '(' then " DEFAULT " ++ v
          else " DEFAULT '" ++ v ++ "'"
        | v => " DEFAULT " ++ goFormat v
      else "")
  ++ (if col.foreignKeyTable ≠ "" then
        " REFERENCES " ++ qi col.foreignKeyTable ++ "(" ++
          qi col.foreignKeyColumn ++ ")"
      else "")

/-- `postgresGenerator.CreateTable` (sql_postgres.go). -/
def createTable (t : Table) : String :=
  "CREATE TABLE " ++ qi t.name ++ " (\n\t" ++
    String.intercalate ",\n\t" (t.columns.map columnDef) ++ "\n)"

/-- `postgresGenerator.DropTableIfExists` (sql_postgres.go). -/
def dropTableIfExists (name : String) : String :=
  "DROP TABLE IF EXISTS " ++ qi name ++ " CASCADE"

/-- `postgresGenerator.AddColumn` (sql_postgres.go). -/
def addColumn (table : String) (col : Column) : String :=
  "ALTER TABLE " ++ qi table ++ " ADD COLUMN " ++ columnDef col

/-- `postgresGenerator.DropColumn` (sql_postgres.go). -/
def dropColumn (table column : String) : String :=
  "ALTER TABLE " ++ qi table ++ " DROP COLUMN " ++ qi column

/-- `postgresGenerator.RenameColumn` (sql_postgres.go). -/
def renameColumn (table oldName newName : String) : String :=
  "ALTER TABLE " ++ qi table ++ " RENAME COLUMN " ++ qi oldName ++
    " TO " ++ qi newName

/-- `postgresGenerator.AddIndex` (sql_postgres.go): index name synthesized
as `{table}_{col1_col2...}_idx`, emitted as CREATE [UNIQUE] INDEX IF NOT
EXISTS. -/
def addIndex (idx : Index) : String :=
  let uniq := if idx.unique then "UNIQUE " else ""
  let idxName := idx.table ++ "_" ++ String.intercalate "_" idx.columns ++ "_idx"
  "CREATE " ++ uniq ++ "INDEX IF NOT EXISTS " ++ qi idxName ++ " ON " ++
    qi idx.table ++ " (" ++
    String.intercalate ", " (idx.columns.map qi) ++ ")"

/-- `postgresGenerator.RenameTable` (sql_postgres.go). -/
def renameTable (oldName newName : String) : String :=
  "ALTER TABLE " ++ qi oldName ++ " RENAME TO " ++ qi newName

end postgresGenerator

/-- `SQLGenerator` (runner.go): the driver capability converting schema
operations to SQL.  A Go method that returns a string becomes `.ok`; a Go
method that panics (the partial drivers) becomes `.error` carrying the
panic message. -/
structure SQLGenerator where
  createTable : Table → Except String String
  dropTableIfExists : String → Except String String
  addColumn : String → Column → Except String String
  dropColumn : String → String → Except String String
  renameColumn : String → String → String → Except String String
  addIndex : Index → Except String String
  renameTable : String → String → Except String String

/-- The `postgresGenerator` (sql_postgres.go) as an `SQLGenerator`: every
operation is implemented and never panics. -/
def postgresSQLGenerator : SQLGenerator where
  createTable t := .ok (postgresGenerator.createTable t)
  dropTableIfExists n := .ok (postgresGenerator.dropTableIfExists n)
  addColumn t c := .ok (postgresGenerator.addColumn t c)
  dropColumn t c := .ok (postgresGenerator.dropColumn t c)
  renameColumn t o n := .ok (postgresGenerator.renameColumn t o n)
  addIndex i := .ok (postgresGenerator.addIndex i)
  renameTable o n := .ok (postgresGenerator.renameTable o n)

/-- The `mysqlGenerator` (src/unnamed/part_004): implements
DropTableIfExists, DropColumn, RenameColumn and RenameTable; CreateTable,
AddColumn and AddIndex panic. -/
def mysqlGenerator : SQLGenerator where
  createTable _ := .error "mysql migration generator not yet implemented"
  dropTableIfExists n := .ok ("DROP TABLE IF EXISTS " ++ n)
  addColumn _ _ := .error "mysql migration generator not yet implemented"
  dropColumn t c := .ok ("ALTER TABLE " ++ t ++ " DROP COLUMN " ++ c)
  renameColumn t o n :=
    .ok ("ALTER TABLE " ++ t ++ " RENAME COLUMN " ++ o ++ " TO " ++ n)
  addIndex _ := .error "mysql migration generator not yet implemented"
  renameTable o n := .ok ("RENAME TABLE " ++ o ++ " TO " ++ n)

/-- The `sqliteGenerator` (sql_sqlite.go): implements DropTableIfExists,
RenameColumn and RenameTable; CreateTable, AddColumn, AddIndex and also
DropColumn panic. -/
def sqliteGenerator : SQLGenerator where
  createTable _ := .error "sqlite migration generator not yet implemented"
  dropTableIfExists n := .ok ("DROP TABLE IF EXISTS " ++ n)
  addColumn _ _ := .error "sqlite migration generator not yet implemented"
  dropColumn _ _ := .error "sqlite: DROP COLUMN requires recreating the table"
  renameColumn t o n :=
    .ok ("ALTER TABLE " ++ t ++ " RENAME COLUMN " ++ o ++ " TO " ++ n)
  addIndex _ := .error "sqlite migration generator not yet implemented"
  renameTable o n := .ok ("ALTER TABLE " ++ o ++ " RENAME TO " ++ n)

/-! ## Migration runner (runner.go)

The live connection becomes an explicit state: the bookkeeping table is a
list of `(migration, batch)` rows in insertion order, and the net effect of
committed DDL statements is the ordered list of statements the connection
accepted (`ddlLog`).  Which statements the connection rejects is
abstracted as a predicate `rejects` on the statement text; `Begin`/`Exec`/
`Rollback`/`Commit` become: statements executed inside a transaction are
appended to the committed log only on commit, and discarded on rollback. -/

/-- `MigrationIface` (runner.go): a migration instance is observed by the
runner only through the Operation logs its `Up`/`Down` record after a
`Reset`, and its `Transactional` flag (default true). -/
structure MigrationIface where
  upOps : List Operation := []
  downOps : List Operation := []
  transactional : Bool := true

/-- `MigrationEntry` (runner.go). -/
structure MigrationEntry where
  id : String
  migration : MigrationIface

/-- The database state visible to the runner. -/
structure DB where
  book : List (String × Nat) := []
  ddlLog : List String := []
deriving DecidableEq, Repr

/-- The bookkeeping map `applied()` (runner.go) delivers: look up the batch
recorded for a migration id. -/
def lookupBatch (book : List (String × Nat)) (id : String) : Option Nat :=
  (book.find? (fun r => r.1 = id)).map (fun r => r.2)

/-- Membership of an id in the bookkeeping rows (`if _, ok := applied[id]`
in runner.go). -/
def hasId (book : List (String × Nat)) (id : String) : Bool :=
  book.any (fun r => r.1 = id)

/-- The maximum applied batch (0 when none), as computed by the loops in
`nextBatch` and `Rollback` (runner.go). -/
def maxBatch (book : List (String × Nat)) : Nat :=
  book.foldl (fun acc r => max acc r.2) 0

/-- `Runner.nextBatch` (runner.go): maximum existing batch plus one. -/
def nextBatch (book : List (String × Nat)) : Nat :=
  maxBatch book + 1

/-- `Runner.opsToSQL` (runner.go): compile one operation through the
driver's generator; AddColumn replays the deferred callback on a fresh
table and emits one statement per resulting column; the view tags fall to
the switch's default and produce no statements. -/
def opsToSQL (g : SQLGenerator) (op : Operation) : Except String (List String) :=
  match op.type with
  | .opCreateTable => do
    let s ← g.createTable (op.tableDef.getD {})
    pure [s]
  | .opDropTableIfExists => do
    let s ← g.dropTableIfExists op.table
    pure [s]
  | .opRenameTable => do
    let s ← g.renameTable op.oldName op.newName
    pure [s]
  | .opAddColumn =>
    let tmp :=
      match op.columnDef with
      | some fn => fn {}
      | none => {}
    tmp.columns.mapM (fun col => g.addColumn op.table col)
  | .opDropColumn => do
    let s ← g.dropColumn op.table op.columnName
    pure [s]
  | .opRenameColumn => do
    let s ← g.renameColumn op.table op.oldName op.newName
    pure [s]
  | .opAddIndex => do
    let s ← g.addIndex (op.index.getD {})
    pure [s]
  | .opAddUniqueIndex => do
    let s ← g.addIndex (op.index.getD {})
    pure [s]
  | .opCreateView => .ok []
  | .opDropView => .ok []

/-- The statement loop inside `Runner.execOps` (runner.go) for one
operation's statements: empty statements are skipped, a rejected statement
stops execution with the wrapped error, accepted statements accumulate in
order.  Returns the statements the connection accepted before any
failure. -/
def execStmtsPartial (rejects : String → Bool) :
    List String → List String × Option String
  | [] => ([], none)
  | q :: rest =>
    if q = "" then execStmtsPartial rejects rest
    else if rejects q then ([], some ("executing " ++ q))
    else
      let p := execStmtsPartial rejects rest
      (q :: p.1, p.2)

/-- `Runner.execOps` (runner.go): compile and execute each operation's
statements in order; a compile panic or a rejected statement stops the run.
Returns the accepted statements (the side effects seen by the connection so
far) and the error, if any. -/
def execOpsPartial (g : SQLGenerator) (rejects : String → Bool) :
    List Operation → List String × Option String
  | [] => ([], none)
  | op :: rest =>
    match opsToSQL g op with
    | .error e => ([], some e)
    | .ok sqls =>
      let p := execStmtsPartial rejects sqls
      match p.2 with
      | some err => (p.1, some err)
      | none =>
        let q := execOpsPartial g rejects rest
        (p.1 ++ q.1, q.2)

/-- `Runner.runMigration` (runner.go): reset, run Up, then execute the
Operation log — inside one transaction when `Transactional()` is true
(failure rolls the transaction back, leaving the database unchanged;
success commits every statement), and directly otherwise (the accepted
prefix persists on failure). -/
def runMigration (g : SQLGenerator) (rejects : String → Bool)
    (m : MigrationIface) (db : DB) : DB × Option String :=
  let p := execOpsPartial g rejects m.upOps
  if m.transactional then
    match p.2 with
    | some err => (db, some err)
    | none => ({ db with ddlLog := db.ddlLog ++ p.1 }, none)
  else
    ({ db with ddlLog := db.ddlLog ++ p.1 }, p.2)

/-- `Runner.rollbackMigration` (runner.go): identical to `runMigration`
but replaying the `Down` log. -/
def rollbackMigration (g : SQLGenerator) (rejects : String → Bool)
    (m : MigrationIface) (db : DB) : DB × Option String :=
  let p := execOpsPartial g rejects m.downOps
  if m.transactional then
    match p.2 with
    | some err => (db, some err)
    | none => ({ db with ddlLog := db.ddlLog ++ p.1 }, none)
  else
    ({ db with ddlLog := db.ddlLog ++ p.1 }, p.2)

/-- The entry loop of `Runner.Migrate` (runner.go): the applied map is the
snapshot read before the loop, the batch number is fixed for the whole
invocation, already-applied ids are skipped, a failure aborts immediately
(earlier commits and bookkeeping rows persist), and each success inserts a
bookkeeping row tagged with the batch.  Also returns the ids that ran, in
order. -/
def migrateLoop (g : SQLGenerator) (rejects : String → Bool)
    (applied : List (String × Nat)) (batch : Nat) :
    List MigrationEntry → DB → DB × List String × Option String
  | [], db => (db, [], none)
  | e :: rest, db =>
    if hasId applied e.id then migrateLoop g rejects applied batch rest db
    else
      match runMigration g rejects e.migration db with
      | (db1, some err) => (db1, [], some ("migrating " ++ e.id ++ ": " ++ err))
      | (db1, none) =>
        let db2 := { db1 with book := db1.book ++ [(e.id, batch)] }
        let r := migrateLoop g rejects applied batch rest db2
        (r.1, e.id :: r.2.1, r.2.2)

/-- `Runner.Migrate` (runner.go): ensure the bookkeeping table, take the
advisory lock (both modelled as state already present), load the applied
map, compute the next batch, and run the entry loop. -/
def migrate (g : SQLGenerator) (rejects : String → Bool)
    (entries : List MigrationEntry) (db : DB) :
    DB × List String × Option String :=
  migrateLoop g rejects db.book (nextBatch db.book) entries db

/-- The entry loop of `Runner.Rollback` (runner.go), walking entries in
reverse registry order (the argument list is already reversed): entries
whose recorded batch in the pre-loop snapshot equals the maximum batch are
rolled back and their bookkeeping rows deleted; others are skipped; a
failure aborts immediately. -/
def rollbackLoop (g : SQLGenerator) (rejects : String → Bool)
    (applied : List (String × Nat)) (maxB : Nat) :
    List MigrationEntry → DB → DB × Option String
  | [], db => (db, none)
  | e :: rest, db =>
    match lookupBatch applied e.id with
    | none => rollbackLoop g rejects applied maxB rest db
    | some b =>
      if b = maxB then
        match rollbackMigration g rejects e.migration db with
        | (db1, some err) => (db1, some ("rolling back " ++ e.id ++ ": " ++ err))
        | (db1, none) =>
          let db2 := { db1 with book := db1.book.filter (fun r => r.1 ≠ e.id) }
          rollbackLoop g rejects applied maxB rest db2
      else rollbackLoop g rejects applied maxB rest db

/-- `Runner.Rollback` (runner.go): find the maximum applied batch (doing
nothing when it is 0), then walk the registry entries in reverse order
rolling back exactly the entries recorded in that batch. -/
def rollback (g : SQLGenerator) (rejects : String → Bool)
    (entries : List MigrationEntry) (db : DB) : DB × Option String :=
  let maxB := maxBatch db.book
  if maxB = 0 then (db, none)
  else rollbackLoop g rejects db.book maxB entries.reverse db

/-! ## Schema inspector (src/unnamed/part_005, `RunSchemaInspector`)

The child process is observed through its exit status and the text it wrote
to its two streams.  `cmd.CombinedOutput()` returns the two streams
interleaved; for a child that writes its payload before any diagnostics the
combined buffer is the primary stream followed by the secondary stream,
which is how it is modelled here.  `encoding/json.Unmarshal` is an external
collaborator; it is modelled by a small JSON reader faithful on the payload
subset the inspector exchanges (objects, arrays, strings, integers,
booleans, null; one top-level value; trailing non-whitespace rejected). -/

/-- JSON values (the model of what `encoding/json` parses). -/
inductive Json where
  | null : Json
  | jbool : Bool → Json
  | jnum : Int → Json
  | jstr : String → Json
  | jarr : List Json → Json
  | jobj : List (String × Json) → Json

/-- Whitespace skipping, as `encoding/json` does around tokens. -/
def skipWs : List Char → List Char
  | c :: rest =>
    if c = ' ' ∨ c = '\n' ∨ c = '\t' ∨ c = '\r' then skipWs rest
    else c :: rest
  | [] => []

/-- Read a run of decimal digits into an accumulator. -/
def parseDigitsAux : List Char → Nat → Nat × List Char
  | c :: rest, acc =>
    if c.isDigit then parseDigitsAux rest (acc * 10 + (c.toNat - '0'.toNat))
    else (acc, c :: rest)
  | [], acc => (acc, [])

/-- Read an integral JSON number (optionally signed).  Fractions and
exponents are outside the modelled subset and are rejected. -/
def parseNum : List Char → Option (Int × List Char)
  | '-' :: rest =>
    match rest with
    | c :: _ =>
      if c.isDigit then
        let p := parseDigitsAux rest 0
        match p.2 with
        | d :: _ => if d = '.' ∨ d = 'e' ∨ d = 'E' then none
                    else some (-(p.1 : Int), p.2)
        | [] => some (-(p.1 : Int), p.2)
      else none
    | [] => none
  | s =>
    match s with
    | c :: _ =>
      if c.isDigit then
        let p := parseDigitsAux s 0
        match p.2 with
        | d :: _ => if d = '.' ∨ d = 'e' ∨ d = 'E' then none
                    else some ((p.1 : Int), p.2)
        | [] => some ((p.1 : Int), p.2)
      else none
    | [] => none

/-- Read the body of a JSON string after the opening quote, handling the
single-character escapes; `\u` escapes are outside the modelled subset. -/
def parseStrBody : List Char → List Char → Option (String × List Char)
  | [], _ => none
  | '"' :: rest, acc => some (⟨acc.reverse⟩, rest)
  | '\\' :: c :: rest, acc =>
    if c = '"' then parseStrBody rest ('"' :: acc)
    else if c = '\\' then parseStrBody rest ('\\' :: acc)
    else if c = '/' then parseStrBody rest ('/' :: acc)
    else if c = 'n' then parseStrBody rest ('\n' :: acc)
    else if c = 't' then parseStrBody rest ('\t' :: acc)
    else if c = 'r' then parseStrBody rest ('\r' :: acc)
    else none
  | ['\\'], _ => none
  | c :: rest, acc => parseStrBody rest (c :: acc)

mutual

/-- Read one JSON value. -/
def parseValue : Nat → List Char → Option (Json × List Char)
  | 0, _ => none
  | fuel + 1, s =>
    match skipWs s with
    | '{' :: rest => parseObjBody fuel rest
    | '[' :: rest => parseArrBody fuel rest
    | '"' :: rest => (parseStrBody rest []).map (fun p => (.jstr p.1, p.2))
    | 't' :: 'r' :: 'u' :: 'e' :: rest => some (.jbool true, rest)
    | 'f' :: 'a' :: 'l' :: 's' :: 'e' :: rest => some (.jbool false, rest)
    | 'n' :: 'u' :: 'l' :: 'l' :: rest => some (.null, rest)
    | s1 => (parseNum s1).map (fun p => (.jnum p.1, p.2))

/-- Read an object body after `{`. -/
def parseObjBody : Nat → List Char → Option (Json × List Char)
  | 0, _ => none
  | fuel + 1, s =>
    match skipWs s with
    | '}' :: rest => some (.jobj [], rest)
    | s1 => parseMembers fuel s1 []

/-- Read the members of a non-empty object. -/
def parseMembers : Nat → List Char → List (String × Json) →
    Option (Json × List Char)
  | 0, _, _ => none
  | fuel + 1, s, acc =>
    match skipWs s with
    | '"' :: rest =>
      match parseStrBody rest [] with
      | none => none
      | some (key, rest1) =>
        match skipWs rest1 with
        | ':' :: rest2 =>
          match parseValue fuel rest2 with
          | none => none
          | some (v, rest3) =>
            match skipWs rest3 with
            | ',' :: rest4 => parseMembers fuel rest4 (acc ++ [(key, v)])
            | '}' :: rest4 => some (.jobj (acc ++ [(key, v)]), rest4)
            | _ => none
        | _ => none
    | _ => none

/-- Read an array body after `[`. -/
def parseArrBody : Nat → List Char → Option (Json × List Char)
  | 0, _ => none
  | fuel + 1, s =>
    match skipWs s with
    | ']' :: rest => some (.jarr [], rest)
    | s1 => parseElems fuel s1 []

/-- Read the elements of a non-empty array. -/
def parseElems : Nat → List Char → List Json → Option (Json × List Char)
  | 0, _, _ => none
  | fuel + 1, s, acc =>
    match parseValue fuel s with
    | none => none
    | some (v, rest) =>
      match skipWs rest with
      | ',' :: rest1 => parseElems fuel rest1 (acc ++ [v])
      | ']' :: rest1 => some (.jarr (acc ++ [v]), rest1)
      | _ => none

end

/-- Parse a whole document: exactly one JSON value, with only whitespace
around it — `encoding/json.Unmarshal` rejects trailing data. -/
def parseJsonDoc (s : String) : Option Json :=
  match parseValue (s.toList.length + 2) s.toList with
  | some (v, rest) => if skipWs rest = [] then some v else none
  | none => none

/-- Field lookup in a decoded object: `encoding/json` lets a later
duplicate key overwrite an earlier one, and ignores unknown keys. -/
def goGetField (fields : List (String × Json)) (k : String) : Option Json :=
  ((fields.filter (fun f => f.1 = k)).map (fun f => f.2)).getLast?

/-- Decode a string field: absent or null leaves the Go zero value `""`;
a wrong type is an unmarshal error. -/
def decodeStrField (fields : List (String × Json)) (k : String) :
    Option String :=
  match goGetField fields k with
  | none => some ""
  | some .null => some ""
  | some (.jstr s) => some s
  | some _ => none

/-- Decode a bool field: absent or null leaves `false`. -/
def decodeBoolField (fields : List (String × Json)) (k : String) :
    Option Bool :=
  match goGetField fields k with
  | none => some false
  | some .null => some false
  | some (.jbool b) => some b
  | some _ => none

/-- Decode an int field: absent or null leaves `0`. -/
def decodeIntField (fields : List (String × Json)) (k : String) :
    Option Int :=
  match goGetField fields k with
  | none => some (0 : Int)
  | some .null => some (0 : Int)
  | some (.jnum n) => some n
  | some _ => none

/-- Decode the `default` field, Go type `any`: absent or null gives nil;
a scalar is kept.  Composite defaults are outside the modelled subset. -/
def decodeAnyField (fields : List (String × Json)) (k : String) :
    Option (Option GoValue) :=
  match goGetField fields k with
  | none => some none
  | some .null => some none
  | some (.jstr s) => some (some (.vstr s))
  | some (.jnum n) => some (some (.vint n))
  | some (.jbool b) => some (some (.vbool b))
  | some _ => none

/-- `inspectorColumnInfo` (src/unnamed/part_005): mirror of the JSON column
payload. -/
structure InspectorColumnInfo where
  name : String := ""
  type : String := ""
  goType : String := ""
  nullable : Bool := false
  primaryKey : Bool := false
  uniqueFlag : Bool := false
  defaultVal : Option GoValue := none
  foreignKeyTable : String := ""
  foreignKeyColumn : String := ""
  length : Int := 0
  precision : Int := 0
  scale : Int := 0
deriving DecidableEq, Repr

/-- `inspectorTableInfo` (part_005). -/
structure InspectorTableInfo where
  name : String := ""
  columns : List InspectorColumnInfo := []
deriving DecidableEq, Repr

/-- `inspectorViewSourceInfo` (part_005). -/
structure InspectorViewSourceInfo where
  table : String := ""
  aliasName : String := ""
  joinType : String := ""
  joinCondition : String := ""
deriving DecidableEq, Repr

/-- `inspectorViewColumnInfo` (part_005). -/
structure InspectorViewColumnInfo where
  name : String := ""
  type : String := ""
  goType : String := ""
  nullable : Bool := false
  sourceAlias : String := ""
  sourceColumn : String := ""
  rawExpr : String := ""
  precision : Int := 0
  scale : Int := 0
deriving DecidableEq, Repr

/-- `inspectorViewInfo` (part_005). -/
structure InspectorViewInfo where
  name : String := ""
  sources : List InspectorViewSourceInfo := []
  columns : List InspectorViewColumnInfo := []
  groupBy : List String := []
deriving DecidableEq, Repr

/-- `inspectorOutput` (part_005): the payload shape
`{"tables": [...], "views": [...]}`. -/
structure InspectorOutput where
  tables : List InspectorTableInfo := []
  views : List InspectorViewInfo := []
deriving DecidableEq, Repr

/-- Decode one column object. -/
def decodeColumnInfo : Json → Option InspectorColumnInfo
  | .jobj fs => do
    let name ← decodeStrField fs "name"
    let ty ← decodeStrField fs "type"
    let goTy ← decodeStrField fs "go_type"
    let nullable ← decodeBoolField fs "nullable"
    let pk ← decodeBoolField fs "primary_key"
    let uniq ← decodeBoolField fs "unique"
    let dflt ← decodeAnyField fs "default"
    let fkt ← decodeStrField fs "foreign_key_table"
    let fkc ← decodeStrField fs "foreign_key_column"
    let len ← decodeIntField fs "length"
    let prec ← decodeIntField fs "precision"
    let sc ← decodeIntField fs "scale"
    pure { name := name, type := ty, goType := goTy, nullable := nullable,
           primaryKey := pk, uniqueFlag := uniq, defaultVal := dflt,
           foreignKeyTable := fkt, foreignKeyColumn := fkc,
           length := len, precision := prec, scale := sc }
  | _ => none

/-- Decode an array-valued field elementwise; absent or null gives the Go
nil slice. -/
def decodeListField {α : Type} (dec : Json → Option α)
    (fields : List (String × Json)) (k : String) : Option (List α) :=
  match goGetField fields k with
  | none => some []
  | some .null => some []
  | some (.jarr xs) => xs.mapM dec
  | some _ => none

/-- Decode one table object. -/
def decodeTableInfo : Json → Option InspectorTableInfo
  | .jobj fs => do
    let name ← decodeStrField fs "name"
    let cols ← decodeListField decodeColumnInfo fs "columns"
    pure { name := name, columns := cols }
  | _ => none

/-- Decode one view source object. -/
def decodeViewSourceInfo : Json → Option InspectorViewSourceInfo
  | .jobj fs => do
    let table ← decodeStrField fs "table"
    let al ← decodeStrField fs "alias"
    let jt ← decodeStrField fs "join_type"
    let jc ← decodeStrField fs "join_condition"
    pure { table := table, aliasName := al, joinType := jt,
           joinCondition := jc }
  | _ => none

/-- Decode one view column object. -/
def decodeViewColumnInfo : Json → Option InspectorViewColumnInfo
  | .jobj fs => do
    let name ← decodeStrField fs "name"
    let ty ← decodeStrField fs "type"
    let goTy ← decodeStrField fs "go_type"
    let nullable ← decodeBoolField fs "nullable"
    let sa ← decodeStrField fs "source_alias"
    let sc ← decodeStrField fs "source_column"
    let re ← decodeStrField fs "raw_expr"
    let prec ← decodeIntField fs "precision"
    let scl ← decodeIntField fs "scale"
    pure { name := name, type := ty, goType := goTy, nullable := nullable,
           sourceAlias := sa, sourceColumn := sc, rawExpr := re,
           precision := prec, scale := scl }
  | _ => none

/-- Decode a bare JSON string (for `group_by` elements). -/
def decodeJsonString : Json → Option String
  | .jstr s => some s
  | _ => none

/-- Decode one view object. -/
def decodeViewInfo : Json → Option InspectorViewInfo
  | .jobj fs => do
    let name ← decodeStrField fs "name"
    let sources ← decodeListField decodeViewSourceInfo fs "sources"
    let cols ← decodeListField decodeViewColumnInfo fs "columns"
    let gb ← decodeListField decodeJsonString fs "group_by"
    pure { name := name, sources := sources, columns := cols, groupBy := gb }
  | _ => none

/-- Decode the whole payload object. -/
def decodeOutputJson : Json → Option InspectorOutput
  | .jobj fs => do
    let tables ← decodeListField decodeTableInfo fs "tables"
    let views ← decodeListField decodeViewInfo fs "views"
    pure { tables := tables, views := views }
  | _ => none

/-- `json.Unmarshal(output, &result)` for the inspector payload. -/
def decodeInspectorOutput (s : String) : Option InspectorOutput :=
  (parseJsonDoc s).bind decodeOutputJson

/-- `typeNameToColumnType` (part_005). -/
def typeNameToColumnType : List (String × ColumnType) :=
  [("uuid", .uuid), ("string", .string), ("text", .text),
   ("integer", .integer), ("biginteger", .bigInteger),
   ("decimal", .decimal), ("boolean", .boolean),
   ("timestamp", .timestamp), ("jsonb", .jsonb), ("date", .date),
   ("time", .time), ("binary", .binary)]

/-- Go map indexing `typeNameToColumnType[ci.Type]`: a missing key yields
the zero value of `schema.ColumnType`, which is `UUID`. -/
def lookupColumnType (s : String) : ColumnType :=
  ((typeNameToColumnType.find? (fun p => p.1 = s)).map (fun p => p.2)).getD .uuid

/-- The table-conversion loop of `RunSchemaInspector` (part_005): note it
copies `Default` without setting `HasDefault`. -/
def convertTables (tis : List InspectorTableInfo) : List Table :=
  tis.map (fun ti =>
    { name := ti.name,
      columns := ti.columns.map (fun ci =>
        { name := ci.name
          type := lookupColumnType ci.type
          isNullable := ci.nullable
          isPrimaryKey := ci.primaryKey
          isUnique := ci.uniqueFlag
          foreignKeyTable := ci.foreignKeyTable
          foreignKeyColumn := ci.foreignKeyColumn
          length := ci.length
          precision := ci.precision
          scale := ci.scale
          defaultValue := match ci.defaultVal with
            | some v => v
            | none => .vnil }) })

/-- The view-conversion loop of `RunSchemaInspector` (part_005). -/
def convertViews (vis : List InspectorViewInfo) : List View :=
  vis.map (fun vi =>
    { name := vi.name,
      groupByCols := vi.groupBy,
      sources := vi.sources.map (fun src =>
        { table := src.table, aliasName := src.aliasName,
          joinType := src.joinType, joinCondition := src.joinCondition }),
      columns := vi.columns.map (fun ci =>
        { sourceAlias := ci.sourceAlias
          sourceColumn := ci.sourceColumn
          rawExpr := ci.rawExpr
          col := { name := ci.name
                   type := lookupColumnType ci.type
                   isNullable := ci.nullable
                   precision := ci.precision
                   scale := ci.scale } }) })

/-- One run of the inspector child process, observed through its exit
status and the text on its two output streams. -/
structure ChildRun where
  exitOk : Bool
  primaryOut : String
  secondaryOut : String
deriving DecidableEq, Repr

/-- `cmd.CombinedOutput()` (part_005 line 244): the two streams
interleaved; for a child that writes its payload before any diagnostics
this is the primary stream followed by the secondary stream. -/
def combinedOutput (r : ChildRun) : String := r.primaryOut ++ r.secondaryOut

/-- `RunSchemaInspector` (part_005) from the child invocation on: a failed
run surfaces the combined output verbatim; otherwise the combined buffer —
not the primary stream alone — is decoded as the payload, a decode
failure again carrying the combined output verbatim; on success the
decoded tables and views are converted. -/
def runSchemaInspectorModel (r : ChildRun) :
    Except String (List Table × List View) :=
  let output := combinedOutput r
  if !r.exitOk then .error ("running inspector: exit failure\n" ++ output)
  else
    match decodeInspectorOutput output with
    | none => .error ("parsing inspector output: invalid payload\n" ++ output)
    | some o => .ok (convertTables o.tables, convertViews o.views)

/-! ## Specification-side definitions used to state the claims -/

/-- The DEFAULT clause as the spec states it: a string default containing
`(` is emitted verbatim and unquoted; any other string default is wrapped
in single quotes; a non-string default is value-formatted. -/
def pgDefaultClause : GoValue → String
  | .vstr s =>
    if goContainsChar s '(' then " DEFAULT " ++ s
    else " DEFAULT '" ++ s ++ "'"
  | v => " DEFAULT " ++ goFormat v

/-- The part of a Postgres column definition before any DEFAULT clause. -/
def pgColumnDefHead (col : Column) : String :=
  qi col.name ++ " " ++ postgresGenerator.columnType col
  ++ (if col.isPrimaryKey then " PRIMARY KEY" else "")
  ++ (if !col.isNullable && !col.isPrimaryKey then " NOT NULL" else "")
  ++ (if col.isUnique then " UNIQUE" else "")

/-- The part of a Postgres column definition after any DEFAULT clause. -/
def pgColumnDefTail (col : Column) : String :=
  if col.foreignKeyTable ≠ "" then
    " REFERENCES " ++ qi col.foreignKeyTable ++ "(" ++
      qi col.foreignKeyColumn ++ ")"
  else ""

/-- The ten Operation tags the spec lists, in the spec's order. -/
def allTableOperations : List TableOperation :=
  [.opCreateTable, .opDropTableIfExists, .opRenameTable, .opAddColumn,
   .opDropColumn, .opRenameColumn, .opAddIndex, .opAddUniqueIndex,
   .opCreateView, .opDropView]

/-- Modelled from the spec: the select-list item the view compiler (the
generated CREATE VIEW emitter, not under `src/`) produces for one view
column — a raw expression passes through to compiled output unmodified,
aliased to the column's output name; a reference column renders its
source. -/
def viewSelectItem (vc : ViewColumn) : String :=
  if vc.rawExpr ≠ "" then vc.rawExpr ++ " AS " ++ vc.outputName
  else vc.sourceAlias ++ "." ++ vc.sourceColumn

/-- Doubling every double-quote character, the char-level content of
`qi`'s `strings.ReplaceAll`. -/
def doubleQuoteChars (l : List Char) : List Char :=
  l.flatMap (fun c => if c = '"' then ['"', '"'] else [c])

/-- The statements a migration's Operation log compiles to (each
operation's statements, empty statements dropped), as the spec's
"all SQL statements compiled from that migration's Operation log". -/
def compiledStmts (g : SQLGenerator) : List Operation → Except String (List String)
  | [] => .ok []
  | op :: rest => do
    let s ← opsToSQL g op
    let r ← compiledStmts g rest
    pure (s.filter (fun q => ¬ q = "") ++ r)

/-- The Down statements a Rollback invocation executes: walking the given
(already reversed) entries, those recorded in the maximum batch contribute
the statements their Down log gets through the connection. -/
def rolledBackStmts (g : SQLGenerator) (rejects : String → Bool)
    (applied : List (String × Nat)) (maxB : Nat) :
    List MigrationEntry → List String
  | [] => []
  | e :: rest =>
    (if lookupBatch applied e.id = some maxB then
       (execOpsPartial g rejects e.migration.downOps).1
     else []) ++ rolledBackStmts g rejects applied maxB rest

/-- Whether a Rollback over the given (already reversed) entries reverts
the row with this id: some entry has this id and is recorded in the
maximum batch. -/
def revertedIn (applied : List (String × Nat)) (maxB : Nat)
    (es : List MigrationEntry) (id : String) : Bool :=
  es.any (fun e => id == e.id && lookupBatch applied e.id == some maxB)

/-! ## Example fixtures (concrete witness inputs, mirroring §8) -/

/-- Example migration A: drops table `a` both ways. -/
def exampleMigA : MigrationIface :=
  { upOps := (Migration.dropTableIfExists {} "a").operations,
    downOps := (Migration.dropTableIfExists {} "a").operations }

/-- Example migration B: drops table `b` both ways. -/
def exampleMigB : MigrationIface :=
  { upOps := (Migration.dropTableIfExists {} "b").operations,
    downOps := (Migration.dropTableIfExists {} "b").operations }

/-- Example migration C: drops table `c` both ways. -/
def exampleMigC : MigrationIface :=
  { upOps := (Migration.dropTableIfExists {} "c").operations,
    downOps := (Migration.dropTableIfExists {} "c").operations }

/-- Example two-statement migration: drop `a`, then drop `b`. -/
def exampleMigAB : MigrationIface :=
  { upOps := (Migration.dropTableIfExists
      (Migration.dropTableIfExists {} "a") "b").operations }

/-- A connection that rejects exactly the statement dropping `b`. -/
def rejectsDropB : String → Bool :=
  fun q => q == "DROP TABLE IF EXISTS \"b\" CASCADE"

/-- Registry A, B. -/
def exampleEntriesAB : List MigrationEntry :=
  [{ id := "A", migration := exampleMigA },
   { id := "B", migration := exampleMigB }]

/-- Registry A, B, C. -/
def exampleEntriesABC : List MigrationEntry :=
  [{ id := "A", migration := exampleMigA },
   { id := "B", migration := exampleMigB },
   { id := "C", migration := exampleMigC }]

/-- Bookkeeping with A and B applied in batch 1 and C in batch 2. -/
def exampleDbABC : DB :=
  { book := [("A", 1), ("B", 1), ("C", 2)], ddlLog := [] }

/-! ## Helper lemmas -/

theorem map_getLast?_concat {α β : Type} (l : List α) (a : α) (f : α → β) :
    ((l ++ [a]).map f).getLast? = some (f a) := by
  simp

theorem toList_qi (s : String) :
    (qi s).toList = '"' :: doubleQuoteChars s.toList ++ ['"'] := by
  have h2 : ("\"\"" : String).toList = ['"', '"'] := rfl
  simp [qi, goReplaceAllChar, doubleQuoteChars, String.toList,
    String.data_append, h2]

theorem doubleQuoteChars_cons_ne (c : Char) (l : List Char) (hc : ¬ c = '"') :
    doubleQuoteChars (c :: l) = c :: doubleQuoteChars l := by
  simp [doubleQuoteChars, hc]

theorem collapse_doubles (l : List Char) :
    collapseDoubledQuotes (doubleQuoteChars l) = l := by
  induction l with
  | nil => rfl
  | cons c l ih =>
    by_cases hc : c = '"'
    · subst hc
      show collapseDoubledQuotes ('"' :: '"' :: doubleQuoteChars l) = '"' :: l
      rw [show collapseDoubledQuotes ('"' :: '"' :: doubleQuoteChars l) =
            '"' :: collapseDoubledQuotes (doubleQuoteChars l) from by
          simp [collapseDoubledQuotes]]
      rw [ih]
    · rw [doubleQuoteChars_cons_ne c l hc]
      cases hdl : doubleQuoteChars l with
      | nil =>
        have hl : l = [] := by
          cases l with
          | nil => rfl
          | cons d l2 =>
            exfalso
            revert hdl
            by_cases hd2 : d = '"' <;> simp [doubleQuoteChars, hd2]
        subst hl
        simp [collapseDoubledQuotes]
      | cons d rest =>
        rw [show collapseDoubledQuotes (c :: d :: rest) =
              c :: collapseDoubledQuotes (d :: rest) from by
            simp [collapseDoubledQuotes, hc]]
        rw [← hdl, ih]

/-! ## Claim theorems -/

/-- C4: the Operation tag set consists of the ten distinct cases
CreateTable, DropTableIfExists, RenameTable, AddColumn, DropColumn,
RenameColumn, AddIndex, AddUniqueIndex, CreateView and DropView, and the
Migration recorder records CreateView and DropView operations, which the
inspector's schema fold consumes to add and remove views. -/
theorem c4_operation_tags_and_view_recorders :
    (allTableOperations.Nodup ∧ ∀ t : TableOperation, t ∈ allTableOperations)
  ∧ (∀ m name (fn : View → View), (Migration.createView m name fn).operations =
      m.operations ++
        [{ type := .opCreateView, table := name,
           viewDef := some (fn { name := name }) }])
  ∧ (∀ m name, (Migration.dropView m name).operations =
      m.operations ++ [{ type := .opDropView, table := name }])
  ∧ (∀ s name (fn : View → View), (applySchemaOp s
      { type := .opCreateView, table := name,
        viewDef := some (fn { name := name }) }).views =
      s.views ++ [fn { name := name }])
  ∧ (∀ s name, (applySchemaOp s { type := .opDropView, table := name }).views =
      s.views.filter (fun v => v.name ≠ name)) := by
  refine ⟨⟨by decide, fun t => by cases t <;> simp [allTableOperations]⟩,
    fun m name fn => rfl, fun m name => rfl, fun s name fn => rfl,
    fun s name => rfl⟩

/-- C5: for a column with a default, the Postgres column definition emits
the DEFAULT clause between the head (name, type, flags) and the tail
(REFERENCES): a string default containing `(` verbatim and unquoted, any
other string default single-quoted, and a non-string default
value-formatted. -/
theorem c5_postgres_default_clause (col : Column)
    (h : col.hasDefault = true) :
    postgresGenerator.columnDef col =
      pgColumnDefHead col ++ pgDefaultClause col.defaultValue ++
        pgColumnDefTail col := by
  unfold postgresGenerator.columnDef pgColumnDefHead pgDefaultClause
    pgColumnDefTail
  rw [h]
  cases col.defaultValue <;> simp

/-- Witness for C5 at a concrete function-call default. -/
theorem c5_postgres_default_clause_witness :
    postgresGenerator.columnDef
      { name := "id", type := .uuid, isPrimaryKey := true,
        hasDefault := true, defaultValue := .vstr "uuid_generate_v7()" } =
      pgColumnDefHead
        { name := "id", type := .uuid, isPrimaryKey := true,
          hasDefault := true, defaultValue := .vstr "uuid_generate_v7()" } ++
      pgDefaultClause (.vstr "uuid_generate_v7()") ++
      pgColumnDefTail
        { name := "id", type := .uuid, isPrimaryKey := true,
          hasDefault := true, defaultValue := .vstr "uuid_generate_v7()" } :=
  c5_postgres_default_clause _ rfl

/-- C6: `qi` doubles every embedded double-quote character and wraps the
result in double quotes, and unquoting (stripping the outer quotes, then
collapsing doubled quotes) recovers every identifier unchanged. -/
theorem c6_qi_round_trip (s : String) :
    (qi s).toList = '"' :: doubleQuoteChars s.toList ++ ['"']
    ∧ unquoteIdent (qi s) = s := by
  refine ⟨toList_qi s, ?_⟩
  unfold unquoteIdent
  rw [toList_qi]
  simp [List.dropLast_concat, collapse_doubles]

/-- C8: the MySQL and SQLite compiler variants emit SQL only for drop
table and the renames (MySQL additionally drop column), and fail with an
explicit unsupported-operation message — emitting no SQL text — for
CreateTable, AddColumn, AddIndex, and on SQLite also DropColumn. -/
theorem c8_partial_drivers_fail_loudly :
    (∀ t, mysqlGenerator.createTable t =
      .error "mysql migration generator not yet implemented")
  ∧ (∀ t c, mysqlGenerator.addColumn t c =
      .error "mysql migration generator not yet implemented")
  ∧ (∀ i, mysqlGenerator.addIndex i =
      .error "mysql migration generator not yet implemented")
  ∧ (∀ n, mysqlGenerator.dropTableIfExists n =
      .ok ("DROP TABLE IF EXISTS " ++ n))
  ∧ (∀ t c, mysqlGenerator.dropColumn t c =
      .ok ("ALTER TABLE " ++ t ++ " DROP COLUMN " ++ c))
  ∧ (∀ t o n, mysqlGenerator.renameColumn t o n =
      .ok ("ALTER TABLE " ++ t ++ " RENAME COLUMN " ++ o ++ " TO " ++ n))
  ∧ (∀ o n, mysqlGenerator.renameTable o n =
      .ok ("RENAME TABLE " ++ o ++ " TO " ++ n))
  ∧ (∀ t, sqliteGenerator.createTable t =
      .error "sqlite migration generator not yet implemented")
  ∧ (∀ t c, sqliteGenerator.addColumn t c =
      .error "sqlite migration generator not yet implemented")
  ∧ (∀ i, sqliteGenerator.addIndex i =
      .error "sqlite migration generator not yet implemented")
  ∧ (∀ t c, sqliteGenerator.dropColumn t c =
      .error "sqlite: DROP COLUMN requires recreating the table")
  ∧ (∀ n, sqliteGenerator.dropTableIfExists n =
      .ok ("DROP TABLE IF EXISTS " ++ n))
  ∧ (∀ t o n, sqliteGenerator.renameColumn t o n =
      .ok ("ALTER TABLE " ++ t ++ " RENAME COLUMN " ++ o ++ " TO " ++ n))
  ∧ (∀ o n, sqliteGenerator.renameTable o n =
      .ok ("ALTER TABLE " ++ o ++ " RENAME TO " ++ n)) := by
  exact ⟨fun _ => rfl, fun _ _ => rfl, fun _ => rfl, fun _ => rfl,
    fun _ _ => rfl, fun _ _ _ => rfl, fun _ _ => rfl, fun _ => rfl,
    fun _ _ => rfl, fun _ => rfl, fun _ _ => rfl, fun _ => rfl,
    fun _ _ _ => rfl, fun _ _ => rfl⟩

/-- C9: for any view, `Column "t.id"` yields a view column with output
name `"id"`, `Column "t.id" ["foo"]` one with output name `"foo"`, and a
`SelectRaw` column stores its raw expression verbatim and passes it
through to the compiled select item unmodified. -/
theorem c9_view_column_output_names (v : View) :
    ((View.column v "t.id").columns.map ViewColumn.outputName).getLast? =
      some "id"
  ∧ ((View.column v "t.id" ["foo"]).columns.map ViewColumn.outputName).getLast? =
      some "foo"
  ∧ (∀ name expr, ((View.selectRaw v name expr).2.rawExpr = expr)
      ∧ (expr ≠ "" →
          viewSelectItem (View.selectRaw v name expr).2 =
            expr ++ " AS " ++ name)) := by
  refine ⟨?_, ?_, fun name expr => ⟨rfl, fun h => ?_⟩⟩
  · rw [show (View.column v "t.id").columns = v.columns ++
        [{ col := { name := "id" }, sourceAlias := "t",
           sourceColumn := "id" }] from rfl,
      map_getLast?_concat]
    rfl
  · rw [show (View.column v "t.id" ["foo"]).columns = v.columns ++
        [{ col := { name := "foo" }, sourceAlias := "t",
           sourceColumn := "id", outputAlias := "foo" }] from rfl,
      map_getLast?_concat]
    rfl
  · simp [View.selectRaw, viewSelectItem, ViewColumn.outputName, h]

/-- Witness for C9 at the concrete SelectRaw column of the testdata view
migration. -/
theorem c9_view_column_output_names_witness :
    viewSelectItem
      (View.selectRaw { name := "user_post_stats" } "post_count"
        "COUNT(p.id)").2 = "COUNT(p.id)" ++ " AS " ++ "post_count" :=
  ((c9_view_column_output_names { name := "user_post_stats" }).2.2
    "post_count" "COUNT(p.id)").2 (by decide)

/-- C10: every column created through a Table builder method starts
non-nullable; the chainable modifiers other than `Nullable` leave
nullability unchanged (`NotNull` forces it off, `Nullable` turns it on);
and the Postgres column definition of any non-nullable, non-primary-key
column contains NOT NULL. -/
theorem c10_builder_columns_not_null :
    (∀ t name, (Table.uuid t name).2.isNullable = false)
  ∧ (∀ t name len, (Table.stringCol t name len).2.isNullable = false)
  ∧ (∀ t name, (Table.text t name).2.isNullable = false)
  ∧ (∀ t name, (Table.integer t name).2.isNullable = false)
  ∧ (∀ t name, (Table.bigInteger t name).2.isNullable = false)
  ∧ (∀ t name p s, (Table.decimal t name p s).2.isNullable = false)
  ∧ (∀ t name, (Table.boolean t name).2.isNullable = false)
  ∧ (∀ t name, (Table.timestamp t name).2.isNullable = false)
  ∧ (∀ t name, (Table.jsonb t name).2.isNullable = false)
  ∧ (∀ t name, (Table.date t name).2.isNullable = false)
  ∧ (∀ t name, (Table.timeCol t name).2.isNullable = false)
  ∧ (∀ t name, (Table.binary t name).2.isNullable = false)
  ∧ (∀ c : Column, (Column.primaryKey c).isNullable = c.isNullable
      ∧ (Column.unique c).isNullable = c.isNullable
      ∧ (∀ v, (Column.default c v).isNullable = c.isNullable)
      ∧ (∀ a b, (Column.foreignKey c a b).isNullable = c.isNullable)
      ∧ (Column.notNull c).isNullable = false
      ∧ (Column.nullable c).isNullable = true)
  ∧ (∀ col : Column, col.isNullable = false → col.isPrimaryKey = false →
      ∃ a b, postgresGenerator.columnDef col = a ++ " NOT NULL" ++ b) := by
  refine ⟨fun _ _ => rfl, fun _ _ _ => rfl, fun _ _ => rfl, fun _ _ => rfl,
    fun _ _ => rfl, fun _ _ _ _ => rfl, fun _ _ => rfl, fun _ _ => rfl,
    fun _ _ => rfl, fun _ _ => rfl, fun _ _ => rfl, fun _ _ => rfl,
    fun c => ⟨rfl, rfl, fun _ => rfl, fun _ _ => rfl, rfl, rfl⟩,
    fun col h1 h2 => ?_⟩
  refine ⟨qi col.name ++ " " ++ postgresGenerator.columnType col,
    (if col.isUnique then " UNIQUE" else "")
    ++ (if col.hasDefault then
          match col.defaultValue with
          | .vstr v =>
            if goContainsChar v '(' then " DEFAULT " ++ v
            else " DEFAULT '" ++ v ++ "'"
          | v => " DEFAULT " ++ goFormat v
        else "")
    ++ (if col.foreignKeyTable ≠ "" then
          " REFERENCES " ++ qi col.foreignKeyTable ++ "(" ++
            qi col.foreignKeyColumn ++ ")"
        else ""), ?_⟩
  unfold postgresGenerator.columnDef
  rw [h1, h2]
  simp [String.append_assoc]

/-- Witness for C10 at a concrete builder column. -/
theorem c10_builder_columns_not_null_witness :
    ∃ a b, postgresGenerator.columnDef
      { name := "email", type := .string, length := 255 } =
      a ++ " NOT NULL" ++ b := by
  obtain ⟨-, -, -, -, -, -, -, -, -, -, -, -, -, h⟩ :=
    c10_builder_columns_not_null
  exact h _ rfl rfl

theorem execStmtsPartial_ok (rejects : String → Bool) (sqls : List String)
    (h : (execStmtsPartial rejects sqls).2 = none) :
    (execStmtsPartial rejects sqls).1 = sqls.filter (fun q => ¬ q = "") := by
  induction sqls with
  | nil => rfl
  | cons q rest ih =>
    by_cases hq : q = ""
    · simp only [execStmtsPartial, if_pos hq] at h ⊢
      rw [ih h, List.filter_cons_of_neg (by simp [hq])]
    · by_cases hr : rejects q
      · exfalso
        simp [execStmtsPartial, hq, hr] at h
      · simp only [execStmtsPartial, if_neg hq, if_neg hr] at h ⊢
        rw [ih h, List.filter_cons_of_pos (by simp [hq])]

theorem execOpsPartial_ok (g : SQLGenerator) (rejects : String → Bool)
    (ops : List Operation)
    (h : (execOpsPartial g rejects ops).2 = none) :
    compiledStmts g ops = .ok (execOpsPartial g rejects ops).1 := by
  induction ops with
  | nil => rfl
  | cons op rest ih =>
    cases hc : opsToSQL g op with
    | error e => exfalso; simp [execOpsPartial, hc] at h
    | ok sqls =>
      cases hp : (execStmtsPartial rejects sqls).2 with
      | some err => exfalso; simp [execOpsPartial, hc, hp] at h
      | none =>
        have h2 : (execOpsPartial g rejects rest).2 = none := by
          simp only [execOpsPartial, hc, hp] at h
          exact h
        have ihv := ih h2
        simp only [execOpsPartial, compiledStmts, hc, hp, ihv,
          execStmtsPartial_ok rejects sqls hp]
        rfl

/-- C1: a transactional migration's statements execute inside one
transaction: on any failure the transaction is rolled back and the
database state is exactly what it was before (no trace of earlier
statements); on success the committed log is extended by precisely the
statements compiled from the migration's Operation log. -/
theorem c1_transactional_atomicity (g : SQLGenerator)
    (rejects : String → Bool) (m : MigrationIface) (db : DB)
    (ht : m.transactional = true) :
    ((runMigration g rejects m db).2 ≠ none →
      (runMigration g rejects m db).1 = db)
  ∧ ((runMigration g rejects m db).2 = none →
      compiledStmts g m.upOps = .ok (execOpsPartial g rejects m.upOps).1
      ∧ (runMigration g rejects m db).1 =
          { db with ddlLog := db.ddlLog ++ (execOpsPartial g rejects m.upOps).1 }) := by
  cases hp : (execOpsPartial g rejects m.upOps).2 with
  | some e =>
    constructor
    · intro _
      simp [runMigration, ht, hp]
    · intro hok
      exfalso
      simp [runMigration, ht, hp] at hok
  | none =>
    constructor
    · intro hne
      exfalso
      simp [runMigration, ht, hp] at hne
    · intro _
      exact ⟨execOpsPartial_ok g rejects m.upOps hp, by
        simp [runMigration, ht, hp]⟩

/-- Witness for C1: a two-statement transactional migration whose second
statement is rejected leaves the database exactly as it was. -/
theorem c1_transactional_atomicity_witness :
    (runMigration postgresSQLGenerator rejectsDropB exampleMigAB
      { book := [], ddlLog := [] }).1 = { book := [], ddlLog := [] } :=
  (c1_transactional_atomicity postgresSQLGenerator rejectsDropB exampleMigAB
    { book := [], ddlLog := [] } rfl).1 (by decide)

/-- C7 counterexample: a child run that exits successfully and prints
exactly one well-formed payload on its primary output stream, plus
diagnostic text on its secondary stream, makes the inspector fail instead
of returning the parsed tables and views — the payload is read from the
combined streams, not from the primary stream alone. -/
theorem c7_counterexample :
    (decodeInspectorOutput "\x7b\"tables\": [], \"views\": []\x7d").isSome = true
  ∧ (runSchemaInspectorModel
      { exitOk := true,
        primaryOut := "\x7b\"tables\": [], \"views\": []\x7d",
        secondaryOut := "warning: deprecated\n" }).toOption = none := by
  exact ⟨by decide, by decide⟩

/-- C7 (amended): the inspector decodes the child's combined primary and
secondary output: a successful run returns the parsed tables and views
when the combined output is one well-formed payload (in particular when
the secondary stream is silent), any text that makes the combined buffer
undecodable turns a successful run into a decode failure carrying the
combined output verbatim, and a failed run surfaces the combined output
verbatim. -/
theorem c7_inspector_combined_output (r : ChildRun) :
    (r.exitOk = true → r.secondaryOut = "" →
      ∀ o, decodeInspectorOutput r.primaryOut = some o →
        runSchemaInspectorModel r =
          .ok (convertTables o.tables, convertViews o.views))
  ∧ (r.exitOk = true →
      decodeInspectorOutput (combinedOutput r) = none →
      runSchemaInspectorModel r =
        .error ("parsing inspector output: invalid payload\n" ++
          combinedOutput r))
  ∧ (r.exitOk = false →
      runSchemaInspectorModel r =
        .error ("running inspector: exit failure\n" ++ combinedOutput r)) := by
  refine ⟨?_, ?_, ?_⟩
  · intro hx hs o hdec
    have hco : combinedOutput r = r.primaryOut := by
      simp [combinedOutput, hs]
    simp [runSchemaInspectorModel, hx, hco, hdec]
  · intro hx hdec
    simp [runSchemaInspectorModel, hx, hdec]
  · intro hx
    simp [runSchemaInspectorModel, hx]

/-- Witness for C7 (amended): a successful child run whose secondary
stream is silent and whose primary stream is the empty payload yields the
empty tables and views. -/
theorem c7_inspector_combined_output_witness :
    runSchemaInspectorModel
      { exitOk := true,
        primaryOut := "\x7b\"tables\": [], \"views\": []\x7d",
        secondaryOut := "" } = .ok ([], []) :=
  (c7_inspector_combined_output
    { exitOk := true,
      primaryOut := "\x7b\"tables\": [], \"views\": []\x7d",
      secondaryOut := "" }).1 rfl rfl { tables := [], views := [] } (by decide)

theorem runMigration_book (g : SQLGenerator) (rejects : String → Bool)
    (m : MigrationIface) (db : DB) :
    (runMigration g rejects m db).1.book = db.book := by
  by_cases hm : m.transactional <;>
    cases hp : (execOpsPartial g rejects m.upOps).2 <;>
    simp [runMigration, hm, hp]

theorem rollbackMigration_ok (g : SQLGenerator) (rejects : String → Bool)
    (m : MigrationIface) (db : DB)
    (h : (rollbackMigration g rejects m db).2 = none) :
    (rollbackMigration g rejects m db).1 =
      { db with ddlLog := db.ddlLog ++ (execOpsPartial g rejects m.downOps).1 } := by
  by_cases hm : m.transactional <;>
    cases hp : (execOpsPartial g rejects m.downOps).2 <;>
    simp [rollbackMigration, hm, hp] at h ⊢

theorem migrateLoop_skip_all (g : SQLGenerator) (rejects : String → Bool)
    (applied : List (String × Nat)) (batch : Nat) :
    ∀ (es : List MigrationEntry) (db : DB),
      (∀ e ∈ es, hasId applied e.id = true) →
      migrateLoop g rejects applied batch es db = (db, [], none) := by
  intro es
  induction es with
  | nil => intro db _; rfl
  | cons e rest ih =>
    intro db h
    have he : hasId applied e.id = true := h e (List.mem_cons_self e rest)
    have hrest : ∀ x ∈ rest, hasId applied x.id = true :=
      fun x hx => h x (List.mem_cons_of_mem e hx)
    rw [show migrateLoop g rejects applied batch (e :: rest) db =
          migrateLoop g rejects applied batch rest db from by
        simp [migrateLoop, he]]
    exact ih db hrest

theorem migrateLoop_cons_run (g : SQLGenerator) (rejects : String → Bool)
    (applied : List (String × Nat)) (batch : Nat) (e : MigrationEntry)
    (rest : List MigrationEntry) (db db1 : DB)
    (he : ¬ hasId applied e.id = true)
    (hrm : runMigration g rejects e.migration db = (db1, none)) :
    migrateLoop g rejects applied batch (e :: rest) db =
      ((migrateLoop g rejects applied batch rest
          { db1 with book := db1.book ++ [(e.id, batch)] }).1,
       e.id :: (migrateLoop g rejects applied batch rest
          { db1 with book := db1.book ++ [(e.id, batch)] }).2.1,
       (migrateLoop g rejects applied batch rest
          { db1 with book := db1.book ++ [(e.id, batch)] }).2.2) := by
  simp [migrateLoop, he, hrm]

theorem migrateLoop_ok (g : SQLGenerator) (rejects : String → Bool)
    (applied : List (String × Nat)) (batch : Nat) :
    ∀ (es : List MigrationEntry) (db : DB),
      (migrateLoop g rejects applied batch es db).2.2 = none →
      (migrateLoop g rejects applied batch es db).2.1 =
        (es.filter (fun e => !(hasId applied e.id))).map (fun e => e.id)
      ∧ (migrateLoop g rejects applied batch es db).1.book =
        db.book ++ (es.filter (fun e => !(hasId applied e.id))).map
          (fun e => (e.id, batch)) := by
  intro es
  induction es with
  | nil =>
    intro db _
    exact ⟨rfl, by simp [migrateLoop]⟩
  | cons e rest ih =>
    intro db hok
    by_cases he : hasId applied e.id
    · rw [show migrateLoop g rejects applied batch (e :: rest) db =
            migrateLoop g rejects applied batch rest db from by
          simp [migrateLoop, he]] at hok ⊢
      rw [List.filter_cons_of_neg (by simp [he])]
      exact ih db hok
    · rcases hrm : runMigration g rejects e.migration db with ⟨db1, o⟩
      cases o with
      | some err =>
        exfalso
        simp [migrateLoop, he, hrm] at hok
      | none =>
        have hb1 : db1.book = db.book := by
          have hbl := runMigration_book g rejects e.migration db
          rw [hrm] at hbl
          exact hbl
        rw [migrateLoop_cons_run g rejects applied batch e rest db db1 he hrm]
          at hok ⊢
        replace hok : (migrateLoop g rejects applied batch rest
            { db1 with book := db1.book ++ [(e.id, batch)] }).2.2 = none := hok
        obtain ⟨ih1, ih2⟩ := ih _ hok
        rw [List.filter_cons_of_pos (by simp [Bool.not_eq_true] at he ⊢; exact he)]
        constructor
        · dsimp only
          rw [ih1, List.map_cons]
        · dsimp only
          rw [ih2]
          dsimp only
          rw [hb1, List.map_cons, List.append_assoc]
          rfl

/-- C3: Migrate applies exactly the entries not yet recorded, in registry
order, tagging each bookkeeping row with batch = maximum existing batch
plus one (1 when nothing is applied), and a second Migrate with no new
entries runs nothing, inserts nothing and leaves the state unchanged. -/
theorem c3_migrate_pending_only (g : SQLGenerator) (rejects : String → Bool)
    (entries : List MigrationEntry) (db : DB)
    (hok : (migrate g rejects entries db).2.2 = none) :
    (migrate g rejects entries db).2.1 =
      (entries.filter (fun e => !(hasId db.book e.id))).map (fun e => e.id)
  ∧ (migrate g rejects entries db).1.book =
      db.book ++ (entries.filter (fun e => !(hasId db.book e.id))).map
        (fun e => (e.id, maxBatch db.book + 1))
  ∧ (db.book = [] → nextBatch db.book = 1)
  ∧ migrate g rejects entries ((migrate g rejects entries db).1) =
      ((migrate g rejects entries db).1, [], none) := by
  have hmain := migrateLoop_ok g rejects db.book (nextBatch db.book)
    entries db hok
  refine ⟨hmain.1, hmain.2, fun h => by simp [nextBatch, maxBatch, h], ?_⟩
  apply migrateLoop_skip_all
  intro e he
  rw [show migrate g rejects entries db =
        migrateLoop g rejects db.book (nextBatch db.book) entries db from rfl,
    hmain.2]
  by_cases hb : hasId db.book e.id
  · simp only [hasId, List.any_append] at hb ⊢
    rw [hb]
    rfl
  · have hmem : e ∈ entries.filter (fun e => !(hasId db.book e.id)) := by
      rw [List.mem_filter]
      exact ⟨he, by revert hb; cases hasId db.book e.id <;> simp⟩
    simp only [hasId, List.any_append, Bool.or_eq_true]
    right
    rw [List.any_eq_true]
    exact ⟨(e.id, nextBatch db.book),
      List.mem_map.mpr ⟨e, hmem, rfl⟩, by simp⟩

/-- Witness for C3: migrating the registry A, B against an empty database
books both in batch 1; migrating again applies nothing and changes
nothing. -/
theorem c3_migrate_pending_only_witness :
    migrate postgresSQLGenerator (fun _ => false) exampleEntriesAB
      ((migrate postgresSQLGenerator (fun _ => false) exampleEntriesAB
        { book := [], ddlLog := [] }).1) =
    ((migrate postgresSQLGenerator (fun _ => false) exampleEntriesAB
        { book := [], ddlLog := [] }).1, [], none)
  ∧ (migrate postgresSQLGenerator (fun _ => false) exampleEntriesAB
      { book := [], ddlLog := [] }).1.book = [("A", 1), ("B", 1)] :=
  ⟨(c3_migrate_pending_only postgresSQLGenerator (fun _ => false)
      exampleEntriesAB { book := [], ddlLog := [] } (by decide)).2.2.2,
   by decide⟩

theorem lookupBatch_mem_nodup :
    ∀ (book : List (String × Nat)), (book.map Prod.fst).Nodup →
      ∀ {r : String × Nat}, r ∈ book → lookupBatch book r.1 = some r.2 := by
  intro book
  induction book with
  | nil => intro _ r hr; cases hr
  | cons b rest ih =>
    intro hnd r hr
    rcases List.mem_cons.mp hr with h | h
    · subst h
      rw [lookupBatch, List.find?_cons_of_pos _ (by simp)]
      rfl
    · have hb : ¬ (b.1 = r.1) := by
        intro heq
        have hmem : r.1 ∈ rest.map Prod.fst := List.mem_map_of_mem Prod.fst h
        rw [List.map_cons] at hnd
        exact (List.nodup_cons.mp hnd).1 (heq ▸ hmem)
      rw [lookupBatch, List.find?_cons_of_neg _ (by simp [hb])]
      have hnd2 : (rest.map Prod.fst).Nodup := by
        rw [List.map_cons] at hnd
        exact (List.nodup_cons.mp hnd).2
      exact ih hnd2 h

theorem rollbackLoop_ok (g : SQLGenerator) (rejects : String → Bool)
    (applied : List (String × Nat)) (maxB : Nat) :
    ∀ (es : List MigrationEntry) (db : DB),
      (rollbackLoop g rejects applied maxB es db).2 = none →
      (rollbackLoop g rejects applied maxB es db).1.book =
        db.book.filter (fun r => !(revertedIn applied maxB es r.1))
      ∧ (rollbackLoop g rejects applied maxB es db).1.ddlLog =
        db.ddlLog ++ rolledBackStmts g rejects applied maxB es := by
  intro es
  induction es with
  | nil =>
    intro db _
    constructor
    · simp [rollbackLoop, revertedIn]
    · simp [rollbackLoop, rolledBackStmts]
  | cons e rest ih =>
    intro db hok
    cases hl : lookupBatch applied e.id with
    | none =>
      rw [show rollbackLoop g rejects applied maxB (e :: rest) db =
            rollbackLoop g rejects applied maxB rest db from by
          simp [rollbackLoop, hl]] at hok ⊢
      obtain ⟨h1, h2⟩ := ih db hok
      constructor
      · rw [h1]
        apply List.filter_congr
        intro r _
        simp [revertedIn, hl]
      · rw [h2]
        simp [rolledBackStmts, hl]
    | some b =>
      by_cases hbm : b = maxB
      · subst hbm
        rcases hrm : rollbackMigration g rejects e.migration db with ⟨db1, o⟩
        cases o with
        | some err =>
          exfalso
          simp [rollbackLoop, hl, hrm] at hok
        | none =>
          have hdb1 : db1 = { db with ddlLog :=
              db.ddlLog ++ (execOpsPartial g rejects e.migration.downOps).1 } := by
            have hh := rollbackMigration_ok g rejects e.migration db
              (by rw [hrm])
            rw [hrm] at hh
            exact hh
          rw [show rollbackLoop g rejects applied b (e :: rest) db =
                rollbackLoop g rejects applied b rest
                  { db1 with book := db1.book.filter (fun r => r.1 ≠ e.id) }
              from by simp [rollbackLoop, hl, hrm]] at hok ⊢
          obtain ⟨h1, h2⟩ := ih _ hok
          constructor
          · rw [h1, hdb1]
            dsimp only
            rw [List.filter_filter]
            apply List.filter_congr
            intro r _
            by_cases hid : r.1 = e.id <;> simp [revertedIn, hl, hid]
          · rw [h2, hdb1]
            dsimp only
            rw [show rolledBackStmts g rejects applied b (e :: rest) =
                  (execOpsPartial g rejects e.migration.downOps).1 ++
                    rolledBackStmts g rejects applied b rest from by
                simp [rolledBackStmts, hl]]
            rw [List.append_assoc]
      · rw [show rollbackLoop g rejects applied maxB (e :: rest) db =
              rollbackLoop g rejects applied maxB rest db from by
            simp [rollbackLoop, hl, hbm]] at hok ⊢
        obtain ⟨h1, h2⟩ := ih db hok
        constructor
        · rw [h1]
          apply List.filter_congr
          intro r _
          simp [revertedIn, hl, hbm]
        · rw [h2]
          simp [rolledBackStmts, hl, hbm]

/-- C2: a successful Rollback deletes exactly the bookkeeping rows whose
id belongs to a registry entry recorded in the maximum applied batch,
appends to the committed log exactly the Down statements of those entries
in reverse registry order, and leaves every row of an earlier batch
applied. -/
theorem c2_rollback_last_batch_only (g : SQLGenerator)
    (rejects : String → Bool) (entries : List MigrationEntry) (db : DB)
    (hnd : (db.book.map Prod.fst).Nodup)
    (hnz : maxBatch db.book ≠ 0)
    (hok : (rollback g rejects entries db).2 = none) :
    (rollback g rejects entries db).1.book =
      db.book.filter (fun r =>
        !(revertedIn db.book (maxBatch db.book) entries.reverse r.1))
  ∧ (rollback g rejects entries db).1.ddlLog =
      db.ddlLog ++ rolledBackStmts g rejects db.book (maxBatch db.book)
        entries.reverse
  ∧ (∀ r ∈ db.book, r.2 ≠ maxBatch db.book →
      r ∈ (rollback g rejects entries db).1.book) := by
  have hrw : rollback g rejects entries db =
      rollbackLoop g rejects db.book (maxBatch db.book) entries.reverse db := by
    simp [rollback, hnz]
  rw [hrw] at hok ⊢
  obtain ⟨h1, h2⟩ := rollbackLoop_ok g rejects db.book (maxBatch db.book)
    entries.reverse db hok
  refine ⟨h1, h2, ?_⟩
  intro r hr hrb
  rw [h1, List.mem_filter]
  refine ⟨hr, ?_⟩
  have hfalse : revertedIn db.book (maxBatch db.book) entries.reverse r.1 =
      false := by
    rw [revertedIn, List.any_eq_false]
    intro e he
    by_cases hid : r.1 = e.id
    · have hlb : lookupBatch db.book e.id = some r.2 := by
        rw [← hid]
        exact lookupBatch_mem_nodup db.book hnd hr
      simp [hlb, hid, hrb]
    · simp [hid]
  simp [hfalse]

/-- Witness for C2: with A and B applied in batch 1 and C in batch 2,
Rollback reverts only C — A and B stay booked and only C's Down statement
reaches the connection. -/
theorem c2_rollback_last_batch_only_witness :
    (rollback postgresSQLGenerator (fun _ => false) exampleEntriesABC
        exampleDbABC).1.book =
      exampleDbABC.book.filter (fun r =>
        !(revertedIn exampleDbABC.book (maxBatch exampleDbABC.book)
          exampleEntriesABC.reverse r.1))
  ∧ (rollback postgresSQLGenerator (fun _ => false) exampleEntriesABC
      exampleDbABC).1.book = [("A", 1), ("B", 1)]
  ∧ (rollback postgresSQLGenerator (fun _ => false) exampleEntriesABC
      exampleDbABC).1.ddlLog = ["DROP TABLE IF EXISTS \"c\" CASCADE"] :=
  ⟨(c2_rollback_last_batch_only postgresSQLGenerator (fun _ => false)
      exampleEntriesABC exampleDbABC (by decide) (by decide) (by decide)).1,
   by decide, by decide⟩

end Pickle
